import Mathlib

/-!
Verification of the asynchronous update-batching core of the repository
(`src/src/core/util/next-tick.js`): the microtask deferred-callback queue
(`nextTick` / `flushCallbacks`) and the watcher scheduler (`queueWatcher` /
`flushSchedulerQueue` / `callUpdatedHooks` / `resetSchedulerState`).

The JavaScript modules are shallowly embedded as pure Lean functions over
explicit state records.  Side effects that matter to the specification
(callback invocations, error reports, warnings, platform scheduling calls,
lifecycle hooks) are recorded in log fields of the state, in the order the
source performs them.  Machine integers do not overflow in any modelled
quantity (array indices, ids, counters), so `Nat` is used directly.
-/

/-! ## MicrotaskQueue (`nextTick` / `flushCallbacks`)

The module-level mutable state of next-tick.js is `callbacks` (the pending
list) and `pending`.  A `timerFunc` invocation is a platform-level scheduling
call; we count them.  A deferred entry is either a wrapped callback (which
may throw; errors are routed to `handleError(e, ctx, 'nextTick')`) or, when
`nextTick` is called without a callback, a promise-resolution slot whose
`_resolve` is assigned only if a `Promise` global exists at call time. -/

/-- A user callback handed to `nextTick`: identified by `id` for the run log;
`fails` models a callback that throws when invoked. -/
structure CbSpec where
  id : Nat
  fails : Bool
  deriving DecidableEq

/-- One entry of the `callbacks` pending list: the closure pushed by
`nextTick`.  `resolveCtx ctx hasResolve` is the no-callback case; `hasResolve`
records whether `_resolve` was assigned (i.e. whether a `Promise` global was
defined when `nextTick` ran, source line 109). -/
inductive TickEntry where
  | callback (cb : CbSpec) (ctx : String)
  | resolveCtx (ctx : String) (hasResolve : Bool)
  deriving DecidableEq

/-- Host capabilities probed by next-tick.js when selecting `timerFunc`. -/
structure Host where
  promiseDefined : Bool
  promiseNative : Bool
  hasMutationObserver : Bool
  hasSetImmediate : Bool
  deriving DecidableEq

/-- The four `timerFunc` tiers of next-tick.js (source lines 40-81). -/
inductive TimerKind where
  | promiseTier
  | mutationObserverTier
  | setImmediateTier
  | timeoutTier
  deriving DecidableEq

/-- Tier selection (source lines 40-81): a native `Promise` first, then
`MutationObserver` (availability condensed into one flag; the IE and
PhantomJS sub-conditions only refine it), then `setImmediate`, then
`setTimeout 0`. -/
def timerKind (h : Host) : TimerKind :=
  if h.promiseDefined && h.promiseNative then .promiseTier
  else if h.hasMutationObserver then .mutationObserverTier
  else if h.hasSetImmediate then .setImmediateTier
  else .timeoutTier

/-- `isUsingMicroTask` (source lines 8, 53, 70): true for the first two tiers. -/
def isUsingMicroTask (h : Host) : Bool :=
  match timerKind h with
  | .promiseTier => true
  | .mutationObserverTier => true
  | _ => false

/-- State of the microtask queue module, plus observation logs:
`timerCalls` counts `timerFunc()` platform scheduling calls, `ranLog` the
successfully invoked callbacks, `errorLog` the `handleError` reports as
(callback id, context label), `resolvedLog` the promise resolutions. -/
structure TickState where
  callbacks : List TickEntry
  pending : Bool
  timerCalls : Nat
  ranLog : List Nat
  errorLog : List (Nat × String)
  resolvedLog : List String
  deriving DecidableEq

/-- The pristine module state: `callbacks = []`, `pending = false`. -/
def tickInit : TickState :=
  { callbacks := [], pending := false, timerCalls := 0
  , ranLog := [], errorLog := [], resolvedLog := [] }

/-- The closure `nextTick` pushes onto `callbacks` (source lines 92-102):
a wrapped callback, or a resolver slot whose `_resolve` exists iff a
`Promise` global is defined (source line 109 checks only definedness). -/
def mkEntry (h : Host) (cb : Option CbSpec) (ctx : String) : TickEntry :=
  match cb with
  | some c => .callback c ctx
  | none => .resolveCtx ctx h.promiseDefined

/-- `nextTick(cb?, ctx?)` (source lines 90-114).  Returns the new state and
whether an awaitable (Promise) was returned to the caller: the source
returns `new Promise(...)` exactly when `!cb && typeof Promise !== 'undefined'`. -/
def nextTick (h : Host) (cb : Option CbSpec) (ctx : String) (s : TickState) :
    TickState × Bool :=
  let s1 := { s with callbacks := s.callbacks ++ [mkEntry h cb ctx] }
  let s2 :=
    if s1.pending then s1
    else { s1 with pending := true, timerCalls := s1.timerCalls + 1 }
  (s2, cb.isNone && h.promiseDefined)

/-- Invoking one snapshotted entry (the closure of source lines 92-102):
a throwing callback is caught and reported via `handleError` with the fixed
context label "nextTick"; a resolver slot resolves with its context iff
`_resolve` was assigned. -/
def runTickEntry (s : TickState) (e : TickEntry) : TickState :=
  match e with
  | .callback c _ =>
    if c.fails then { s with errorLog := s.errorLog ++ [(c.id, "nextTick")] }
    else { s with ranLog := s.ranLog ++ [c.id] }
  | .resolveCtx ctx hasResolve =>
    if hasResolve then { s with resolvedLog := s.resolvedLog ++ [ctx] }
    else s

/-- `flushCallbacks` (source lines 19-27): clear `pending`, snapshot and
clear `callbacks`, then invoke every snapshotted entry in order. -/
def flushCallbacks (s : TickState) : TickState :=
  let copies := s.callbacks
  let s1 := { s with pending := false, callbacks := [] }
  copies.foldl runTickEntry s1

/-- What a snapshot entry contributes to `ranLog`. -/
def entryRan : TickEntry → Option Nat
  | .callback c _ => if c.fails then none else some c.id
  | .resolveCtx _ _ => none

/-- What a snapshot entry contributes to `errorLog`. -/
def entryErr : TickEntry → Option (Nat × String)
  | .callback c _ => if c.fails then some (c.id, "nextTick") else none
  | .resolveCtx _ _ => none

/-- What a snapshot entry contributes to `resolvedLog`. -/
def entryRes : TickEntry → Option String
  | .callback _ _ => none
  | .resolveCtx ctx hasResolve => if hasResolve then some ctx else none

/-! ## UpdateScheduler (`queueWatcher` / `flushSchedulerQueue`)

The module-level mutable state of scheduler.js: `queue`, `activatedChildren`,
`has`, `circular`, `waiting`, `flushing`, `index`.  A watcher's observable
interface is its id, `user` flag, `expression`, optional `before` hook, what
it queues while running (`queuesOnRun`, resolved through an id environment),
and its owning component `vm`.  Watcher identity coincides with id equality
because ids are process-wide unique and never reused. -/

/-- The scheduler-facing interface of a `Watcher` (source lines 547, 710-746). -/
structure WatcherSpec where
  id : Nat
  user : Bool
  expression : String
  hasBefore : Bool
  queuesOnRun : List Nat
  vm : Nat
  deriving DecidableEq

/-- The scheduler-facing interface of a component instance: `primary` is the
id of `vm._watcher` (its render watcher) when set; `onUpdated` lists the
watcher ids that its `updated` lifecycle hook queues when invoked. -/
structure ComponentSpec where
  primary : Option Nat
  isMounted : Bool
  isDestroyed : Bool
  onUpdated : List Nat
  deriving DecidableEq

/-- The sparse numeric-keyed count map `circular`, as an association list;
absent keys read 0. -/
def circGet (c : List (Nat × Nat)) (id : Nat) : Nat :=
  ((c.find? (fun e => e.1 == id)).map Prod.snd).getD 0

/-- `circular[id] = v`: replace the first binding of `id`, or append one. -/
def circSet (c : List (Nat × Nat)) (id v : Nat) : List (Nat × Nat) :=
  match c with
  | [] => [(id, v)]
  | e :: rest => if e.1 == id then (id, v) :: rest else e :: circSet rest id v

/-- Module state of scheduler.js plus observation logs.  `circular` is the
sparse numeric-keyed count map (absent keys read 0).  `flushRequests` counts
`nextTick(flushSchedulerQueue)` scheduling requests; `requeues` counts
admissions taken while `flushing` (the mid-flush splice branch); `runLog`,
`beforeLog`, `updatedLog`, `activatedLog`, `warnings` record the calls to
`watcher.run`, `watcher.before`, `callHook(vm, 'updated')`,
activation hooks, and `warn`. -/
structure SchedulerState where
  queue : List WatcherSpec
  activatedChildren : List Nat
  has : List Nat
  circular : List (Nat × Nat)
  waiting : Bool
  flushing : Bool
  index : Nat
  runLog : List Nat
  beforeLog : List Nat
  updatedLog : List Nat
  activatedLog : List Nat
  warnings : List String
  flushRequests : Nat
  requeues : Nat
  deriving DecidableEq

/-- The pristine module state (source lines 561-567). -/
def initState : SchedulerState :=
  { queue := [], activatedChildren := [], has := [], circular := []
  , waiting := false, flushing := false, index := 0
  , runLog := [], beforeLog := [], updatedLog := [], activatedLog := []
  , warnings := [], flushRequests := 0, requeues := 0 }

/-- `MAX_UPDATE_COUNT` (source line 559). -/
def MAX_UPDATE_COUNT : Nat := 100

/-- The id of `q[i]`, defaulting to 0 out of range (never read out of range
on the paths the source exercises). -/
def idAt (q : List WatcherSpec) (i : Nat) : Nat :=
  ((q[i]?).map WatcherSpec.id).getD 0

/-- The backward scan of `queueWatcher` (source lines 723-726):
`let i = queue.length - 1; while (i > index && queue[i].id > watcher.id) i--`.
`scanBack q index wid i` is the final value of `i` when started at `i`. -/
def scanBack (q : List WatcherSpec) (index wid : Nat) : Nat → Nat
  | 0 => 0
  | i + 1 =>
    if index < i + 1 ∧ wid < idAt q (i + 1)
    then scanBack q index wid i
    else i + 1

/-- The splice position `i + 1` of source line 727; on an empty queue the
JavaScript scan starts at `i = -1` and splices at 0. -/
def splicePos (q : List WatcherSpec) (index wid : Nat) : Nat :=
  if q.length = 0 then 0 else scanBack q index wid (q.length - 1) + 1

/-- `queue.splice(n, 0, w)`: insert `w` at position `n`, clamping to the end
exactly as `Array.prototype.splice` does. -/
def insertAt (n : Nat) (w : WatcherSpec) : List WatcherSpec → List WatcherSpec
  | l =>
    match n, l with
    | 0, l => w :: l
    | _ + 1, [] => [w]
    | n + 1, x :: xs => x :: insertAt n w xs

/-- The tail of `queueWatcher` (source lines 730-744): on the first admission
of a window set `waiting` and request a flush through `nextTick`
(`flushRequests` counts those platform requests; the synchronous
`!config.async` test-only branch is outside the modelled configuration). -/
def finishWaiting (s : SchedulerState) : SchedulerState :=
  if s.waiting then s
  else { s with waiting := true, flushRequests := s.flushRequests + 1 }

/-- `queueWatcher(watcher)` (source lines 710-746): drop duplicates already
in `has`; otherwise record the id and either push (not flushing) or splice
at the backward-scan position (flushing); then schedule a flush if none is
waiting. -/
def queueWatcher (w : WatcherSpec) (s : SchedulerState) : SchedulerState :=
  if w.id ∈ s.has then s
  else
    finishWaiting <|
      if s.flushing then
        { s with has := s.has ++ [w.id]
               , queue := insertAt (splicePos s.queue s.index w.id) w s.queue
               , requeues := s.requeues + 1 }
      else
        { s with has := s.has ++ [w.id], queue := s.queue ++ [w] }

/-- `watcher.run()` as the scheduler observes it: log the run, then perform
the watcher's re-registrations through `queueWatcher` (the re-entrancy
contract), resolving ids through the watcher environment `env`. -/
def runWatcher (env : Nat → WatcherSpec) (w : WatcherSpec) (s : SchedulerState) :
    SchedulerState :=
  w.queuesOnRun.foldl (fun acc qid => queueWatcher (env qid) acc)
    { s with runLog := s.runLog ++ [w.id] }

/-- The `warn` message of source lines 646-652. -/
def warnMsg (w : WatcherSpec) : String :=
  "You may have an infinite update loop " ++
    (if w.user then "in watcher with expression \"" ++ w.expression ++ "\""
     else "in a component render function.")

/-- One iteration of the flush loop of `flushSchedulerQueue` (source lines
634-656), on the watcher `w = queue[index]`: call `before` if present, clear
the id from `has` before `run`, run (performing the watcher's
re-registrations), then the dev-mode circular-update check.  Returns
`(true, next)` to continue iterating from `next` (whose `index` was
advanced), or `(false, final)` when the circular counter exceeded
`MAX_UPDATE_COUNT` and the loop must break after warning. -/
def flushBody (env : Nat → WatcherSpec) (s : SchedulerState) (w : WatcherSpec) :
    Bool × SchedulerState :=
  let s1 := if w.hasBefore then { s with beforeLog := s.beforeLog ++ [w.id] } else s
  let s2 := { s1 with has := s1.has.erase w.id }
  let s3 := runWatcher env w s2
  if w.id ∈ s3.has then
    let c := circGet s3.circular w.id + 1
    let s4 := { s3 with circular := circSet s3.circular w.id c }
    if MAX_UPDATE_COUNT < c then
      (false, { s4 with warnings := s4.warnings ++ [warnMsg w] })
    else
      (true, { s4 with index := s4.index + 1 })
  else
    (true, { s3 with index := s3.index + 1 })

/-- The flush loop of `flushSchedulerQueue` (source lines 634-657): iterate
`index` against the live queue length, running `flushBody` on `queue[index]`
until the loop guard fails or an iteration breaks.  `fuel` bounds the
iteration count (the JavaScript loop may diverge without the break). -/
def flushLoop (env : Nat → WatcherSpec) : Nat → SchedulerState → SchedulerState
  | 0, s => s
  | fuel + 1, s =>
    if hlt : s.index < s.queue.length then
      let r := flushBody env s (s.queue.get ⟨s.index, hlt⟩)
      if r.1 then flushLoop env fuel r.2 else r.2
    else s

/-- The ascending-by-id comparator of source line 631. -/
def leId (a b : WatcherSpec) : Prop := a.id ≤ b.id

instance : DecidableRel leId := fun a b => inferInstanceAs (Decidable (a.id ≤ b.id))

instance : IsTotal WatcherSpec leId := ⟨fun a b => Nat.le_total a.id b.id⟩

instance : IsTrans WatcherSpec leId := ⟨fun _ _ _ h1 h2 => Nat.le_trans h1 h2⟩

/-- `queue.sort((a, b) => a.id - b.id)` (source line 631): a stable sort
ascending by id. -/
def sortQueue (q : List WatcherSpec) : List WatcherSpec :=
  List.insertionSort leId q

/-- Ascending-by-id sortedness of a queue segment. -/
def IdSorted (l : List WatcherSpec) : Prop := List.Sorted leId l

instance (l : List WatcherSpec) : Decidable (IdSorted l) :=
  inferInstanceAs (Decidable (List.Sorted leId l))

/-- Sorting then draining: the first phase of `flushSchedulerQueue`
(source lines 619-657) up to loop exit or break. -/
def flushPhase1 (env : Nat → WatcherSpec) (fuel : Nat) (s : SchedulerState) :
    SchedulerState :=
  flushLoop env fuel { s with flushing := true, queue := sortQueue s.queue }

/-- `resetSchedulerState` (source lines 572-579), in dev mode (`circular`
is cleared too). -/
def resetSchedulerState (s : SchedulerState) : SchedulerState :=
  { s with index := 0, queue := [], activatedChildren := [], has := []
         , circular := [], waiting := false, flushing := false }

/-- `callActivatedHooks` (source lines 698-703): forward over the copied
activation list (the `activateChildComponent` re-activation itself belongs
to the lifecycle collaborator; the scheduler-visible effect is the ordered
hook invocation). -/
def callActivatedHooks (q : List Nat) (s : SchedulerState) : SchedulerState :=
  { s with activatedLog := s.activatedLog ++ q }

/-- The guard of source line 681: `vm._watcher === watcher && vm._isMounted
&& !vm._isDestroyed`.  Object identity of watchers coincides with id
equality (ids are unique and never reused). -/
def updatedCond (cenv : Nat → ComponentSpec) (w : WatcherSpec) : Bool :=
  ((cenv w.vm).primary == some w.id) && (cenv w.vm).isMounted &&
    !(cenv w.vm).isDestroyed

/-- Processing the already-reversed copied queue: for each qualifying
watcher invoke `callHook(vm, 'updated')`, whose user code may call
`queueWatcher` again (modelled by the component's `onUpdated` list). -/
def callUpdatedHooksRev (env : Nat → WatcherSpec) (cenv : Nat → ComponentSpec) :
    List WatcherSpec → SchedulerState → SchedulerState
  | [], s => s
  | w :: rest, s =>
    let s1 :=
      if updatedCond cenv w then
        (cenv w.vm).onUpdated.foldl (fun acc qid => queueWatcher (env qid) acc)
          { s with updatedLog := s.updatedLog ++ [w.vm] }
      else s
    callUpdatedHooksRev env cenv rest s1

/-- `callUpdatedHooks` (source lines 676-685): walk the copied queue from
the end backward. -/
def callUpdatedHooks (env : Nat → WatcherSpec) (cenv : Nat → ComponentSpec)
    (q : List WatcherSpec) (s : SchedulerState) : SchedulerState :=
  callUpdatedHooksRev env cenv q.reverse s

/-- `queueActivatedComponent` (source lines 691-696); the synchronous
`_inactive = false` write belongs to the component collaborator. -/
def queueActivatedComponent (vm : Nat) (s : SchedulerState) : SchedulerState :=
  { s with activatedChildren := s.activatedChildren ++ [vm] }

/-- `flushSchedulerQueue` (source lines 619-674): drain the sorted queue,
copy the post queues, reset all scheduler state, then run activation hooks
forward and updated hooks backward over the copies.  The
`currentFlushTimestamp` capture (consumed only by listener timing in the
host runtime) and the devtools emit are side effects outside the scheduler
state and are not modelled. -/
def flushSchedulerQueue (env : Nat → WatcherSpec) (cenv : Nat → ComponentSpec)
    (fuel : Nat) (s : SchedulerState) : SchedulerState :=
  let s2 := flushPhase1 env fuel s
  let activatedQueue := s2.activatedChildren
  let updatedQueue := s2.queue
  let s3 := resetSchedulerState s2
  let s4 := callActivatedHooks activatedQueue s3
  callUpdatedHooks env cenv updatedQueue s4

/-! ## Concrete fixtures used by the theorems below -/

/-- An inert watcher: id `n`, internal, no `before` hook, queues nothing,
owned by component `n`. -/
def exW (n : Nat) : WatcherSpec :=
  { id := n, user := false, expression := "", hasBefore := false
  , queuesOnRun := [], vm := n }

/-- The identity watcher environment. -/
def envId : Nat → WatcherSpec := exW

/-- A component environment with no render watchers and inert hooks. -/
def cenv0 : Nat → ComponentSpec :=
  fun _ => { primary := none, isMounted := false, isDestroyed := false, onUpdated := [] }

/-- Components whose render (primary) watcher is watcher `n`, mounted and
not destroyed, with an inert `updated` hook. -/
def cenvP : Nat → ComponentSpec :=
  fun n => { primary := some n, isMounted := true, isDestroyed := false, onUpdated := [] }

/-- Watcher 2 of the C1 example: queues watcher 4 while running. -/
def wReg : WatcherSpec := { exW 2 with queuesOnRun := [4] }

/-- Watcher environment of the C1 example. -/
def envC1 : Nat → WatcherSpec := fun n => if n = 2 then wReg else exW n

/-- Mid-flush state of the C1 example: cursor on job 2, remaining `[2, 5, 8]`. -/
def sMid : SchedulerState :=
  { initState with queue := [exW 1, wReg, exW 5, exW 8], index := 1
                 , has := [5, 8], flushing := true, waiting := true }

/-- The C1 example before its flush: jobs 2, 5, 8, 1 registered. -/
def sC1 : SchedulerState :=
  queueWatcher (exW 1)
    (queueWatcher (exW 8) (queueWatcher (exW 5) (queueWatcher wReg initState)))

/-- The runaway watcher of C2: a user watcher that unconditionally
re-registers itself on every run. -/
def wSpin : WatcherSpec :=
  { id := 1, user := true, expression := "spin", hasBefore := false
  , queuesOnRun := [1], vm := 0 }

/-- Watcher environment of the C2 scenario; 1000 is an inert bystander job. -/
def envC2 : Nat → WatcherSpec := fun n => if n = 1 then wSpin else exW n

/-- The C2 scenario before its flush: the runaway job and a later job 1000. -/
def sC2 : SchedulerState := queueWatcher (exW 1000) (queueWatcher wSpin initState)

/-- The C2 loop state at the start of iteration `k` (for `1 ≤ k`): the queue
holds `k + 1` copies of the runaway job followed by job 1000, `k` runs have
happened, `k` mid-flush re-registrations were taken, and the circular counter
for id 1 reads `k`. -/
def spinState (k : Nat) : SchedulerState :=
  { queue := List.replicate (k + 1) wSpin ++ [exW 1000], activatedChildren := []
  , has := [1000, 1], circular := [(1, k)], waiting := true, flushing := true
  , index := k, runLog := List.replicate k 1, beforeLog := [], updatedLog := []
  , activatedLog := [], warnings := [], flushRequests := 1, requeues := k }

/-- The state in which the C2 runaway loop stops: 101 runs, 101
re-registrations, counter 101, the infinite-update warning issued, and
job 1000 still queued behind the break point. -/
def spinBreak : SchedulerState :=
  { queue := List.replicate 102 wSpin ++ [exW 1000], activatedChildren := []
  , has := [1000, 1], circular := [(1, 101)], waiting := true, flushing := true
  , index := 100, runLog := List.replicate 101 1, beforeLog := [], updatedLog := []
  , activatedLog := [], warnings := [warnMsg wSpin], flushRequests := 1, requeues := 101 }

/-- The C2 scenario at loop entry (sorted queue, flushing). -/
def spinStart : SchedulerState :=
  { initState with queue := [wSpin, exW 1000], has := [1, 1000], waiting := true
                 , flushing := true, flushRequests := 1 }

/-- The C3 example: jobs queued in the order 3, 1, 2. -/
def sC3 : SchedulerState :=
  queueWatcher (exW 2) (queueWatcher (exW 1) (queueWatcher (exW 3) initState))

/-- The C6 example watcher: id 1, owned by component 5. -/
def wHook : WatcherSpec := { exW 1 with vm := 5 }

/-- The C6 component environment: component 5 is mounted, watcher 1 is its
render watcher, and its `updated` hook queues watcher 1 again. -/
def cenvHook : Nat → ComponentSpec :=
  fun n =>
    if n = 5 then
      { primary := some 1, isMounted := true, isDestroyed := false, onUpdated := [1] }
    else cenv0 n

/-- Watcher environment of the C6 example. -/
def envHook : Nat → WatcherSpec := fun n => if n = 1 then wHook else exW n

/-- A host with a native `Promise` (and every other primitive). -/
def hostFull : Host :=
  { promiseDefined := true, promiseNative := true
  , hasMutationObserver := true, hasSetImmediate := true }

/-- A host with a non-native `Promise` polyfill: `typeof Promise` is defined
but `isNative(Promise)` fails. -/
def hostPolyfill : Host :=
  { promiseDefined := true, promiseNative := false
  , hasMutationObserver := true, hasSetImmediate := true }

/-- A host with no `Promise` global at all. -/
def hostBare : Host :=
  { promiseDefined := false, promiseNative := false
  , hasMutationObserver := false, hasSetImmediate := false }

/-- A callback that returns normally. -/
def okCb (n : Nat) : CbSpec := { id := n, fails := false }

/-- A callback that throws. -/
def badCb (n : Nat) : CbSpec := { id := n, fails := true }

/-- The C5 example: five callbacks enqueued synchronously in one turn. -/
def tick5 : TickState :=
  (nextTick hostFull (some (okCb 5)) ""
    ((nextTick hostFull (some (okCb 4)) ""
      ((nextTick hostFull (some (okCb 3)) ""
        ((nextTick hostFull (some (okCb 2)) ""
          ((nextTick hostFull (some (okCb 1)) "" tickInit).1)).1)).1)).1)).1

/-- The C7 example: a throwing callback between two normal ones. -/
def tick3 : TickState :=
  (nextTick hostFull (some (okCb 3)) ""
    ((nextTick hostFull (some (badCb 2)) ""
      ((nextTick hostFull (some (okCb 1)) "" tickInit).1)).1)).1

/-- The C1 example at loop entry (sorted queue, flushing). -/
def c1Start : SchedulerState :=
  { initState with queue := [exW 1, wReg, exW 5, exW 8], has := [2, 5, 8, 1]
                 , waiting := true, flushing := true, flushRequests := 1 }

/-- The C1 example after job 1 ran. -/
def c1S1 : SchedulerState :=
  { c1Start with has := [2, 5, 8], index := 1, runLog := [1] }

/-- The C1 example after job 2 ran and spliced job 4 into the suffix. -/
def c1S2 : SchedulerState :=
  { c1Start with queue := [exW 1, wReg, exW 4, exW 5, exW 8], has := [5, 8, 4]
               , index := 2, runLog := [1, 2], requeues := 1 }

/-- The C1 example after job 4 ran. -/
def c1S3 : SchedulerState :=
  { c1S2 with has := [5, 8], index := 3, runLog := [1, 2, 4] }

/-- The C1 example after job 5 ran. -/
def c1S4 : SchedulerState :=
  { c1S2 with has := [8], index := 4, runLog := [1, 2, 4, 5] }

/-- The C1 example after job 8 ran. -/
def c1S5 : SchedulerState :=
  { c1S2 with has := [], index := 5, runLog := [1, 2, 4, 5, 8] }

/-! ## Properties of the mid-flush insertion (`queueWatcher` while flushing) -/

theorem finishWaiting_queue (s : SchedulerState) :
    (finishWaiting s).queue = s.queue := by
  unfold finishWaiting; split <;> rfl

theorem finishWaiting_updatedLog (s : SchedulerState) :
    (finishWaiting s).updatedLog = s.updatedLog := by
  unfold finishWaiting; split <;> rfl

theorem queueWatcher_updatedLog (w : WatcherSpec) (s : SchedulerState) :
    (queueWatcher w s).updatedLog = s.updatedLog := by
  unfold queueWatcher
  split
  · rfl
  · rw [finishWaiting_updatedLog]; split <;> rfl

/-- The scan never moves upward. -/
theorem scanBack_le (q : List WatcherSpec) (index wid : Nat) :
    ∀ i, scanBack q index wid i ≤ i := by
  intro i
  induction i with
  | zero => simp [scanBack]
  | succ i ih =>
    rw [scanBack]
    split
    · exact Nat.le_trans ih (Nat.le_succ i)
    · exact Nat.le_refl _

/-- The scan never moves below the cursor. -/
theorem le_scanBack (q : List WatcherSpec) (index wid : Nat) :
    ∀ i, index ≤ i → index ≤ scanBack q index wid i := by
  intro i
  induction i with
  | zero => intro h; simpa [scanBack] using h
  | succ i ih =>
    intro h
    rw [scanBack]
    split
    · next hcond => exact ih (Nat.lt_succ_iff.mp hcond.1)
    · exact h

/-- Why the scan stopped: it is at the cursor, or the id there is small enough. -/
theorem scanBack_stop (q : List WatcherSpec) (index wid : Nat) :
    ∀ i, ¬(index < scanBack q index wid i ∧ wid < idAt q (scanBack q index wid i)) := by
  intro i
  induction i with
  | zero => simp [scanBack]
  | succ i ih =>
    rw [scanBack]
    split
    · exact ih
    · next hcond => exact hcond

/-- Every position the scan moved past holds an id greater than the new id. -/
theorem scanBack_gt (q : List WatcherSpec) (index wid : Nat) :
    ∀ i j, scanBack q index wid i < j → j ≤ i → wid < idAt q j := by
  intro i
  induction i with
  | zero =>
    intro j h1 h2
    simp [scanBack] at h1
    omega
  | succ i ih =>
    intro j h1 h2
    rw [scanBack] at h1
    split at h1
    · next hcond =>
      rcases Nat.lt_or_ge i j with hj | hj
      · have : j = i + 1 := by omega
        subst this; exact hcond.2
      · exact ih j h1 hj
    · omega

/-- `splice` is take-insert-drop. -/
theorem insertAt_eq (w : WatcherSpec) :
    ∀ (n : Nat) (l : List WatcherSpec), insertAt n w l = l.take n ++ w :: l.drop n := by
  intro n
  induction n with
  | zero => intro l; simp [insertAt]
  | succ n ih =>
    intro l
    cases l with
    | nil => simp [insertAt]
    | cons x xs => simp [insertAt, ih]

theorem idAt_eq (q : List WatcherSpec) (j : Nat) (h : j < q.length) :
    idAt q j = (q.get ⟨j, h⟩).id := by
  simp [idAt, List.getElem?_eq_getElem h]

theorem queueWatcher_flushing_queue (w : WatcherSpec) (s : SchedulerState)
    (hf : s.flushing = true) (hh : w.id ∉ s.has) :
    (queueWatcher w s).queue = insertAt (splicePos s.queue s.index w.id) w s.queue := by
  unfold queueWatcher
  rw [if_neg hh, if_pos hf, finishWaiting_queue]

/-- Claim C1, general part: a mid-flush admission splices at the backward-scan
position; that position is strictly after the cursor (so the job runs later in
the same cycle), every position at or after it held a strictly greater id, the
position is right after the cursor or right after an id not greater than the
new id, and the strict suffix after the cursor stays sorted ascending by id. -/
theorem queueWatcher_midflush (w : WatcherSpec) (s : SchedulerState)
    (hf : s.flushing = true) (hh : w.id ∉ s.has) (hi : s.index < s.queue.length)
    (hs : IdSorted (s.queue.drop (s.index + 1))) :
    (queueWatcher w s).queue = insertAt (splicePos s.queue s.index w.id) w s.queue ∧
    s.index < splicePos s.queue s.index w.id ∧
    splicePos s.queue s.index w.id ≤ s.queue.length ∧
    (∀ j, j < s.queue.length → splicePos s.queue s.index w.id ≤ j →
      w.id < idAt s.queue j) ∧
    (splicePos s.queue s.index w.id = s.index + 1 ∨
      idAt s.queue (splicePos s.queue s.index w.id - 1) ≤ w.id) ∧
    IdSorted (((queueWatcher w s).queue).drop (s.index + 1)) := by
  have hq := queueWatcher_flushing_queue w s hf hh
  have hn : ¬ s.queue.length = 0 := by omega
  have hp : splicePos s.queue s.index w.id
      = scanBack s.queue s.index w.id (s.queue.length - 1) + 1 := by
    rw [splicePos, if_neg hn]
  set q := s.queue with hqdef
  set idx := s.index with hidxdef
  set wid := w.id with hwiddef
  set r := scanBack q idx wid (q.length - 1) with hrdef
  have hr_le : r ≤ q.length - 1 := scanBack_le q idx wid _
  have hr_ge : idx ≤ r := le_scanBack q idx wid _ (by omega)
  have hstop := scanBack_stop q idx wid (q.length - 1)
  rw [← hrdef] at hstop
  have hgt : ∀ j, r < j → j ≤ q.length - 1 → wid < idAt q j := by
    intro j h1 h2
    exact scanBack_gt q idx wid (q.length - 1) j (by rw [← hrdef]; exact h1) h2
  refine ⟨hq, by omega, by omega, ?_, ?_, ?_⟩
  · intro j hj1 hj2
    exact hgt j (by omega) (by omega)
  · rcases Nat.eq_or_lt_of_le hr_ge with heq | hlt
    · left; omega
    · right
      have : idAt q r ≤ wid := by
        by_contra hcon
        exact hstop ⟨hlt, by omega⟩
      simpa [hp] using this
  · -- sortedness of the strict suffix after the cursor
    rw [hq, insertAt_eq]
    have htake_len : (q.take (splicePos q idx wid)).length = splicePos q idx wid := by
      simp [List.length_take]; omega
    rw [List.drop_append_of_le_length (by omega)]
    rw [List.drop_take]
    have hsplit : List.drop (splicePos q idx wid) q
        = List.drop (splicePos q idx wid - (idx + 1)) (List.drop (idx + 1) q) := by
      rw [List.drop_drop]
      congr 1
      omega
    rw [hsplit]
    set t := List.drop (idx + 1) q with htdef
    set k := splicePos q idx wid - (idx + 1) with hkdef
    have htlen : t.length = q.length - (idx + 1) := by
      rw [htdef, List.length_drop]
    have hst : List.Pairwise leId t := hs
    have h1 : List.Pairwise leId (t.take k) :=
      List.Pairwise.sublist (List.take_sublist k t) hst
    have h2 : List.Pairwise leId (t.drop k) :=
      List.Pairwise.sublist (List.drop_sublist k t) hst
    have hcross0 : ∀ x ∈ t.take k, ∀ y ∈ t.drop k, leId x y := by
      have hx := hst
      rw [← List.take_append_drop k t] at hx
      exact (List.pairwise_append.mp hx).2.2
    have hhi : ∀ y ∈ t.drop k, leId w y := by
      intro y hy
      rw [htdef, ← hsplit] at hy
      rcases List.mem_iff_getElem.mp hy with ⟨m, hm, hym⟩
      rw [List.length_drop] at hm
      have hlt : splicePos q idx wid + m < q.length := by omega
      have hgty : wid < idAt q (splicePos q idx wid + m) := by
        refine hgt (splicePos q idx wid + m) (by omega) (by omega)
      rw [idAt_eq q _ hlt] at hgty
      have hyval : y = q.get ⟨splicePos q idx wid + m, hlt⟩ := by
        rw [← hym]
        simp [List.getElem_drop]
      show w.id ≤ y.id
      rw [hyval]
      omega
    have hlo : ∀ x ∈ t.take k, leId x w := by
      intro x hx
      rcases List.mem_iff_getElem.mp hx with ⟨m, hm, hxm⟩
      rw [List.length_take] at hm
      have hmk : m < k := by omega
      have hmt : m < t.length := by omega
      have hridx : idx < r := by omega
      have hbound : idAt q r ≤ wid := by
        by_contra hcon
        exact hstop ⟨hridx, by omega⟩
      have hxval : x = t.get ⟨m, hmt⟩ := by
        rw [← hxm]
        simp [List.getElem_take]
      have hk1t : k - 1 < t.length := by omega
      have hlast : (t.get ⟨k - 1, hk1t⟩).id = idAt q r := by
        rw [← idAt_eq t (k - 1) hk1t, htdef]
        simp only [idAt, List.getElem?_drop]
        have hir : idx + 1 + (k - 1) = r := by omega
        rw [hir]
      have hmono : (t.get ⟨m, hmt⟩).id ≤ (t.get ⟨k - 1, hk1t⟩).id := by
        rcases Nat.lt_or_ge m (k - 1) with hmlt | hmge
        · exact List.pairwise_iff_get.mp hst ⟨m, hmt⟩ ⟨k - 1, hk1t⟩ hmlt
        · have : m = k - 1 := by omega
          subst this
          exact Nat.le_refl _
      show x.id ≤ w.id
      rw [hxval]
      omega
    show List.Pairwise leId (t.take k ++ w :: t.drop k)
    rw [List.pairwise_append]
    refine ⟨h1, ?_, ?_⟩
    · rw [List.pairwise_cons]
      exact ⟨hhi, h2⟩
    · intro x hx y hy
      rcases List.mem_cons.mp hy with rfl | hy2
      · exact hlo x hx
      · exact hcross0 x hx y hy2

/-! ## Stepping the flush loop -/

theorem flushLoop_exit (env : Nat → WatcherSpec) (fuel : Nat) (s : SchedulerState)
    (h : ¬ s.index < s.queue.length) :
    flushLoop env (fuel + 1) s = s := by
  rw [flushLoop, dif_neg h]

theorem flushLoop_cont (env : Nat → WatcherSpec) (fuel : Nat) (s t : SchedulerState)
    (w : WatcherSpec) (hlt : s.index < s.queue.length)
    (hw : s.queue.get ⟨s.index, hlt⟩ = w)
    (hb : flushBody env s w = (true, t)) :
    flushLoop env (fuel + 1) s = flushLoop env fuel t := by
  rw [List.get_eq_getElem] at hw
  rw [flushLoop, dif_pos hlt]
  simp [hw, hb]

theorem flushLoop_stop (env : Nat → WatcherSpec) (fuel : Nat) (s t : SchedulerState)
    (w : WatcherSpec) (hlt : s.index < s.queue.length)
    (hw : s.queue.get ⟨s.index, hlt⟩ = w)
    (hb : flushBody env s w = (false, t)) :
    flushLoop env (fuel + 1) s = t := by
  rw [List.get_eq_getElem] at hw
  rw [flushLoop, dif_pos hlt]
  simp [hw, hb]

theorem flushSchedulerQueue_eq (env : Nat → WatcherSpec) (cenv : Nat → ComponentSpec)
    (fuel : Nat) (s : SchedulerState) :
    flushSchedulerQueue env cenv fuel s
      = callUpdatedHooks env cenv (flushPhase1 env fuel s).queue
          (callActivatedHooks (flushPhase1 env fuel s).activatedChildren
            (resetSchedulerState (flushPhase1 env fuel s))) := rfl

/-- Witness for `queueWatcher_midflush`, on the spec example: remaining queue
`[2, 5, 8]` with the cursor on job 2, registering id 4 splices it right after
the cursor, the unprocessed suffix becomes `[4, 5, 8]`, and the whole flush
cycle runs `1, 2, 4, 5, 8`. -/
theorem queueWatcher_midflush_witness :
    sMid.flushing = true ∧ (exW 4).id ∉ sMid.has ∧ sMid.index < sMid.queue.length ∧
    IdSorted (sMid.queue.drop (sMid.index + 1)) ∧
    sMid.index < splicePos sMid.queue sMid.index (exW 4).id ∧
    IdSorted (((queueWatcher (exW 4) sMid).queue).drop (sMid.index + 1)) ∧
    (queueWatcher (exW 4) sMid).queue = [exW 1, wReg, exW 4, exW 5, exW 8] ∧
    (flushSchedulerQueue envC1 cenv0 20 sC1).runLog = [1, 2, 4, 5, 8] := by
  have h := queueWatcher_midflush (exW 4) sMid rfl (by decide) (by decide) (by decide)
  have h0 : ({ sC1 with flushing := true, queue := sortQueue sC1.queue } : SchedulerState)
      = c1Start := by decide
  have hphase : flushPhase1 envC1 20 sC1 = c1S5 :=
    calc flushPhase1 envC1 20 sC1
        = flushLoop envC1 20 c1Start := by rw [flushPhase1, h0]
      _ = flushLoop envC1 19 c1S1 :=
          flushLoop_cont envC1 19 c1Start c1S1 (exW 1) (by decide) (by decide) (by decide)
      _ = flushLoop envC1 18 c1S2 :=
          flushLoop_cont envC1 18 c1S1 c1S2 wReg (by decide) (by decide) (by decide)
      _ = flushLoop envC1 17 c1S3 :=
          flushLoop_cont envC1 17 c1S2 c1S3 (exW 4) (by decide) (by decide) (by decide)
      _ = flushLoop envC1 16 c1S4 :=
          flushLoop_cont envC1 16 c1S3 c1S4 (exW 5) (by decide) (by decide) (by decide)
      _ = flushLoop envC1 15 c1S5 :=
          flushLoop_cont envC1 15 c1S4 c1S5 (exW 8) (by decide) (by decide) (by decide)
      _ = c1S5 := flushLoop_exit envC1 14 c1S5 (by decide)
  refine ⟨rfl, by decide, by decide, by decide, h.2.1, h.2.2.2.2.2, by decide, ?_⟩
  rw [flushSchedulerQueue_eq, hphase]
  decide

/-! ## Sorting at flush start -/

/-- Claim C3: `flushSchedulerQueue` sorts the job queue ascending by id
before draining it (the sort yields a sorted queue for every input, and the
drain loop starts only on the sorted queue), so jobs queued as `[3, 1, 2]`
run in the order `1, 2, 3`. -/
theorem flush_sorts_queue :
    (∀ q : List WatcherSpec, IdSorted (sortQueue q)) ∧
    (∀ (env : Nat → WatcherSpec) (fuel : Nat) (s : SchedulerState),
      flushPhase1 env fuel s
        = flushLoop env fuel { s with flushing := true, queue := sortQueue s.queue }) ∧
    (flushSchedulerQueue envId cenv0 10 sC3).runLog = [1, 2, 3] :=
  ⟨fun q => List.sorted_insertionSort leId q, fun _ _ _ => rfl, by decide⟩

/-! ## Duplicate registrations -/

/-- Claim C4: a `queueWatcher` call whose id is already in the membership
set is a no-op, so registering the same job twice before a flush results in
exactly one `run` for that flush cycle. -/
theorem queueWatcher_dedup (w : WatcherSpec) (s : SchedulerState)
    (hmem : w.id ∈ s.has) :
    queueWatcher w s = s ∧
    (flushSchedulerQueue envId cenv0 10
        (queueWatcher (exW 7) (queueWatcher (exW 7) initState))).runLog = [7] := by
  constructor
  · unfold queueWatcher
    rw [if_pos hmem]
  · decide

/-- Witness for `queueWatcher_dedup`: id 7 is present after the first
registration, and the second registration leaves the state unchanged. -/
theorem queueWatcher_dedup_witness :
    (exW 7).id ∈ (queueWatcher (exW 7) initState).has ∧
    queueWatcher (exW 7) (queueWatcher (exW 7) initState)
      = queueWatcher (exW 7) initState ∧
    (flushSchedulerQueue envId cenv0 10
        (queueWatcher (exW 7) (queueWatcher (exW 7) initState))).runLog = [7] := by
  have h := queueWatcher_dedup (exW 7) (queueWatcher (exW 7) initState) (by decide)
  exact ⟨by decide, h.1, h.2⟩

/-! ## Microtask queue -/

/-- `nextTick` in one equation: append the wrapped entry, set `pending`, and
charge a platform scheduling call only when `pending` was clear. -/
theorem nextTick_state (h : Host) (cb : Option CbSpec) (ctx : String) (s : TickState) :
    (nextTick h cb ctx s).1
      = { s with callbacks := s.callbacks ++ [mkEntry h cb ctx], pending := true
               , timerCalls := if s.pending then s.timerCalls else s.timerCalls + 1 } := by
  unfold nextTick
  cases hsp : s.pending <;> simp [hsp]

/-- Folding the snapshot through `runTickEntry` appends each entry's
contribution to each log, independently of the other entries. -/
theorem foldl_runTickEntry (l : List TickEntry) :
    ∀ s : TickState,
      l.foldl runTickEntry s
        = { s with ranLog := s.ranLog ++ l.filterMap entryRan
                 , errorLog := s.errorLog ++ l.filterMap entryErr
                 , resolvedLog := s.resolvedLog ++ l.filterMap entryRes } := by
  induction l with
  | nil => intro s; simp
  | cons e l ih =>
    intro s
    rw [List.foldl_cons, ih]
    cases e with
    | callback c ctx =>
      cases hf : c.fails <;>
        simp [runTickEntry, hf, entryRan, entryErr, entryRes, List.filterMap_cons]
    | resolveCtx ctx hr =>
      cases hr <;>
        simp [runTickEntry, entryRan, entryErr, entryRes, List.filterMap_cons]

/-- `flushCallbacks` in one equation: clear `pending` and the pending list,
then each snapshotted entry contributes its own run, error report, or
resolution, in snapshot order. -/
theorem flushCallbacks_eq (s : TickState) :
    flushCallbacks s
      = { s with pending := false, callbacks := []
               , ranLog := s.ranLog ++ s.callbacks.filterMap entryRan
               , errorLog := s.errorLog ++ s.callbacks.filterMap entryErr
               , resolvedLog := s.resolvedLog ++ s.callbacks.filterMap entryRes } := by
  unfold flushCallbacks
  rw [foldl_runTickEntry]

/-- Claim C5: only an `enqueue` that finds `pending` clear issues a platform
scheduling call; later calls in the same window are free and only append; and
five synchronous enqueues yield one scheduling call and one flush running all
five callbacks in registration order. -/
theorem nextTick_batching (h : Host) (cb : Option CbSpec) (ctx : String)
    (s : TickState) :
    (s.pending = true → (nextTick h cb ctx s).1.timerCalls = s.timerCalls) ∧
    (s.pending = false → (nextTick h cb ctx s).1.timerCalls = s.timerCalls + 1) ∧
    (nextTick h cb ctx s).1.callbacks = s.callbacks ++ [mkEntry h cb ctx] ∧
    tick5.timerCalls = 1 ∧
    (flushCallbacks tick5).ranLog = [1, 2, 3, 4, 5] := by
  refine ⟨?_, ?_, ?_, by decide, by decide⟩
  · intro hp; rw [nextTick_state]; simp [hp]
  · intro hp; rw [nextTick_state]; simp [hp]
  · rw [nextTick_state]

/-- Witness for `nextTick_batching`: a second enqueue in a pending window is
free; the first enqueue of a window charges one scheduling call. -/
theorem nextTick_batching_witness :
    ((nextTick hostFull (some (okCb 1)) "" tickInit).1.pending = true ∧
      (nextTick hostFull (some (okCb 2)) ""
          (nextTick hostFull (some (okCb 1)) "" tickInit).1).1.timerCalls
        = (nextTick hostFull (some (okCb 1)) "" tickInit).1.timerCalls) ∧
    tickInit.pending = false ∧
    (nextTick hostFull (some (okCb 1)) "" tickInit).1.timerCalls
      = tickInit.timerCalls + 1 := by
  have h1 := nextTick_batching hostFull (some (okCb 2)) ""
    (nextTick hostFull (some (okCb 1)) "" tickInit).1
  have h2 := nextTick_batching hostFull (some (okCb 1)) "" tickInit
  exact ⟨⟨by decide, h1.1 (by decide)⟩, rfl, h2.2.1 rfl⟩

/-- Claim C7: each snapshotted entry is invoked in isolation — a throwing
callback only adds an error report tagged "nextTick" and every other entry
of the same snapshot still runs, in order. -/
theorem flushCallbacks_isolation (s : TickState) :
    flushCallbacks s
      = { s with pending := false, callbacks := []
               , ranLog := s.ranLog ++ s.callbacks.filterMap entryRan
               , errorLog := s.errorLog ++ s.callbacks.filterMap entryErr
               , resolvedLog := s.resolvedLog ++ s.callbacks.filterMap entryRes } ∧
    (flushCallbacks tick3).ranLog = [1, 3] ∧
    (flushCallbacks tick3).errorLog = [(2, "nextTick")] :=
  ⟨flushCallbacks_eq s, by decide, by decide⟩

/-- Claim C8: with a `Promise` global defined, `nextTick` without a callback
returns an awaitable; nothing is resolved at enqueue time, and the flush
resolves that entry with exactly its context value. -/
theorem nextTick_awaitable (h : Host) (ctx : String) (s : TickState)
    (hp : h.promiseDefined = true) :
    (nextTick h none ctx s).2 = true ∧
    (nextTick h none ctx s).1.resolvedLog = s.resolvedLog ∧
    (flushCallbacks (nextTick h none ctx s).1).resolvedLog
      = s.resolvedLog ++ s.callbacks.filterMap entryRes ++ [ctx] := by
  refine ⟨by simp [nextTick, hp], ?_, ?_⟩
  · rw [nextTick_state]
  · rw [nextTick_state, flushCallbacks_eq]
    simp [mkEntry, entryRes, hp, List.filterMap_append]

/-- Witness for `nextTick_awaitable`: context "x" on a full host resolves to
exactly "x", and only once the flush runs. -/
theorem nextTick_awaitable_witness :
    hostFull.promiseDefined = true ∧
    (nextTick hostFull none "x" tickInit).2 = true ∧
    (nextTick hostFull none "x" tickInit).1.resolvedLog = [] ∧
    (flushCallbacks (nextTick hostFull none "x" tickInit).1).resolvedLog = ["x"] := by
  have h := nextTick_awaitable hostFull "x" tickInit rfl
  exact ⟨rfl, h.1, h.2.1, by simpa using h.2.2⟩

/-- Claim C10 counterexample: on a host with a non-native `Promise` polyfill
(no native Promise, so the promise timer tier is not selected), `nextTick`
with no callback still returns an awaitable rather than nothing, because the
source only checks that a `Promise` global is defined. -/
theorem nextTick_polyfill_counterexample :
    hostPolyfill.promiseNative = false ∧
    timerKind hostPolyfill ≠ TimerKind.promiseTier ∧
    (nextTick hostPolyfill none "x" tickInit).2 = true :=
  ⟨rfl, by decide, by decide⟩

/-- Claim C10 (amended): when no `Promise` global is defined at all,
`nextTick` with no callback returns nothing and the recorded entry does
nothing at flush time (no resolution, no run); the awaitable is returned
whenever a `Promise` global is defined, native or not. -/
theorem nextTick_no_promise_global (h : Host) (ctx : String) (s : TickState)
    (hp : h.promiseDefined = false) :
    (nextTick h none ctx s).2 = false ∧
    (flushCallbacks (nextTick h none ctx s).1).resolvedLog
      = s.resolvedLog ++ s.callbacks.filterMap entryRes ∧
    (flushCallbacks (nextTick h none ctx s).1).ranLog
      = s.ranLog ++ s.callbacks.filterMap entryRan := by
  refine ⟨by simp [nextTick, hp], ?_, ?_⟩
  · rw [nextTick_state, flushCallbacks_eq]
    simp [mkEntry, entryRes, hp, List.filterMap_append]
  · rw [nextTick_state, flushCallbacks_eq]
    simp [mkEntry, entryRan, List.filterMap_append]

/-- Witness for `nextTick_no_promise_global`: a bare host returns no
awaitable and the flush resolves nothing. -/
theorem nextTick_no_promise_global_witness :
    hostBare.promiseDefined = false ∧
    (nextTick hostBare none "x" tickInit).2 = false ∧
    (flushCallbacks (nextTick hostBare none "x" tickInit).1).resolvedLog = [] := by
  have h := nextTick_no_promise_global hostBare "x" tickInit rfl
  exact ⟨rfl, h.1, by simpa using h.2.1⟩

/-! ## Updated hooks -/

theorem foldl_queueWatcher_updatedLog (env : Nat → WatcherSpec) (l : List Nat) :
    ∀ s : SchedulerState,
      (l.foldl (fun acc qid => queueWatcher (env qid) acc) s).updatedLog
        = s.updatedLog := by
  induction l with
  | nil => intro s; rfl
  | cons a l ih => intro s; rw [List.foldl_cons, ih, queueWatcher_updatedLog]

theorem callUpdatedHooksRev_updatedLog (env : Nat → WatcherSpec)
    (cenv : Nat → ComponentSpec) :
    ∀ (l : List WatcherSpec) (s : SchedulerState),
      (callUpdatedHooksRev env cenv l s).updatedLog
        = s.updatedLog ++ (l.filter (updatedCond cenv)).map WatcherSpec.vm := by
  intro l
  induction l with
  | nil => intro s; simp [callUpdatedHooksRev]
  | cons w l ih =>
    intro s
    rw [callUpdatedHooksRev]
    cases hc : updatedCond cenv w
    · rw [if_neg (by simp [hc]), ih, List.filter_cons, if_neg (by simp [hc])]
    · rw [if_pos (by simp [hc]), ih, foldl_queueWatcher_updatedLog,
        List.filter_cons, if_pos (by simp [hc])]
      simp [List.append_assoc]

/-- Claim C9: `callUpdatedHooks` walks the copied queue in reverse and fires
the "updated" hook exactly for the jobs that are their component's primary
update job on a mounted, not-destroyed component; a flush whose primary jobs
are 1, 2, 3 fires the hooks in order 3, 2, 1. -/
theorem updated_hooks_reverse (env : Nat → WatcherSpec)
    (cenv : Nat → ComponentSpec) (q : List WatcherSpec) (s : SchedulerState) :
    (callUpdatedHooks env cenv q s).updatedLog
      = s.updatedLog ++ (q.reverse.filter (updatedCond cenv)).map WatcherSpec.vm ∧
    (flushSchedulerQueue envId cenvP 10 sC3).updatedLog = [3, 2, 1] :=
  ⟨callUpdatedHooksRev_updatedLog env cenv q.reverse s, by decide⟩

/-! ## Reset before post-flush hooks -/

/-- Claim C6: when the drain phase of `flushSchedulerQueue` ends, the whole
scheduler state (queue, activated list, membership set, cursor, circular
counts, `waiting`, `flushing`) is reset, and the activation and updated hooks
run only on the already-reset state over the saved copies; concretely, a job
whose id (1) just ran and is re-queued from inside the post-flush "updated"
hook is accepted again and schedules a brand-new flush cycle. -/
theorem reset_before_hooks (env : Nat → WatcherSpec) (cenv : Nat → ComponentSpec)
    (fuel : Nat) (s : SchedulerState) :
    (resetSchedulerState (flushPhase1 env fuel s)).queue = [] ∧
    (resetSchedulerState (flushPhase1 env fuel s)).activatedChildren = [] ∧
    (resetSchedulerState (flushPhase1 env fuel s)).has = [] ∧
    (resetSchedulerState (flushPhase1 env fuel s)).index = 0 ∧
    (resetSchedulerState (flushPhase1 env fuel s)).circular = [] ∧
    (resetSchedulerState (flushPhase1 env fuel s)).waiting = false ∧
    (resetSchedulerState (flushPhase1 env fuel s)).flushing = false ∧
    flushSchedulerQueue env cenv fuel s
      = callUpdatedHooks env cenv (flushPhase1 env fuel s).queue
          (callActivatedHooks (flushPhase1 env fuel s).activatedChildren
            (resetSchedulerState (flushPhase1 env fuel s))) ∧
    ((flushSchedulerQueue envHook cenvHook 10 (queueWatcher wHook initState)).runLog
        = [1] ∧
      (flushSchedulerQueue envHook cenvHook 10 (queueWatcher wHook initState)).queue
        = [wHook] ∧
      (flushSchedulerQueue envHook cenvHook 10 (queueWatcher wHook initState)).has
        = [1] ∧
      (flushSchedulerQueue envHook cenvHook 10 (queueWatcher wHook initState)).waiting
        = true ∧
      (flushSchedulerQueue envHook cenvHook 10 (queueWatcher wHook initState)).flushing
        = false ∧
      (flushSchedulerQueue envHook cenvHook 10 (queueWatcher wHook initState)).flushRequests
        = 2) :=
  ⟨rfl, rfl, rfl, rfl, rfl, rfl, rfl, rfl, by decide⟩

theorem scanBack_self (q : List WatcherSpec) (wid : Nat) :
    ∀ k, scanBack q k wid k = k := by
  intro k
  cases k with
  | zero => rfl
  | succ i => rw [scanBack, if_neg (fun h => absurd h.1 (by omega))]

theorem idAt_spin (k : Nat) :
    idAt (List.replicate (k + 1) wSpin ++ [exW 1000]) (k + 1) = 1000 := by
  simp only [idAt]
  rw [List.getElem?_append_right (by simp)]
  simp [exW]

theorem spin_splicePos (k : Nat) :
    splicePos (List.replicate (k + 1) wSpin ++ [exW 1000]) k 1 = k + 1 := by
  have hlen : (List.replicate (k + 1) wSpin ++ [exW 1000]).length = k + 2 := by simp
  rw [splicePos, if_neg (by simp), hlen]
  show scanBack _ k 1 (k + 1) + 1 = k + 1
  rw [scanBack, if_pos ⟨by omega, by rw [idAt_spin k]; omega⟩, scanBack_self]

theorem spin_lt (k : Nat) : (spinState k).index < (spinState k).queue.length := by
  simp only [spinState, List.length_append, List.length_replicate]
  omega

theorem spin_get (k : Nat) (h : (spinState k).index < (spinState k).queue.length) :
    (spinState k).queue.get ⟨(spinState k).index, h⟩ = wSpin := by
  rw [List.get_eq_getElem]
  simp only [spinState]
  rw [List.getElem_append_left (by simp)]
  simp

theorem insertAt_replicate (w : WatcherSpec) (l : List WatcherSpec) :
    ∀ n, insertAt n w (List.replicate n w ++ l) = List.replicate (n + 1) w ++ l := by
  intro n
  induction n with
  | zero => simp [insertAt]
  | succ n ih =>
    rw [List.replicate_succ, List.cons_append]
    show w :: insertAt n w (List.replicate n w ++ l) = _
    rw [ih]
    simp [List.replicate_succ]

theorem spin_requeue (k : Nat) :
    queueWatcher wSpin
      { queue := List.replicate (k + 1) wSpin ++ [exW 1000], activatedChildren := []
      , has := ([1000, 1] : List Nat).erase 1, circular := [(1, k)], waiting := true
      , flushing := true, index := k, runLog := List.replicate k 1 ++ [1]
      , beforeLog := [], updatedLog := [], activatedLog := [], warnings := []
      , flushRequests := 1, requeues := k }
    = { queue := List.replicate (k + 2) wSpin ++ [exW 1000], activatedChildren := []
      , has := [1000, 1], circular := [(1, k)], waiting := true, flushing := true
      , index := k, runLog := List.replicate k 1 ++ [1], beforeLog := []
      , updatedLog := [], activatedLog := [], warnings := [], flushRequests := 1
      , requeues := k + 1 } := by
  have herase : ([1000, 1] : List Nat).erase 1 = [1000] := by decide
  rw [herase]
  unfold queueWatcher
  rw [if_neg (by simp [wSpin]), if_pos rfl, show wSpin.id = 1 from rfl, spin_splicePos k,
    insertAt_replicate]
  unfold finishWaiting
  rw [if_pos rfl]
  rfl

theorem spin_body (k : Nat) (hk : k ≤ 99) :
    flushBody envC2 (spinState k) wSpin = (true, spinState (k + 1)) := by
  have h100 : ¬ (MAX_UPDATE_COUNT < k + 1) := by
    simp only [MAX_UPDATE_COUNT]
    omega
  have hbef : wSpin.hasBefore = false := rfl
  have hrun : wSpin.queuesOnRun = [1] := rfl
  have henv : envC2 1 = wSpin := rfl
  unfold flushBody runWatcher
  simp only [hbef, hrun, henv, List.foldl_cons, List.foldl_nil, Bool.false_eq_true,
    if_false, spinState]
  rw [show wSpin.id = 1 from rfl, spin_requeue k]
  have hmem : (1 : Nat) ∈ [1000, 1] := by decide
  rw [if_pos hmem]
  have hcg : circGet [(1, k)] 1 = k := by simp [circGet, List.find?]
  have hcs : circSet [(1, k)] 1 (k + 1) = [(1, k + 1)] := by simp [circSet]
  rw [hcg, if_neg h100, hcs]
  rw [show List.replicate k 1 ++ [1] = List.replicate (k + 1) (1 : Nat) from
    (List.replicate_succ' k 1).symm]


theorem spin_step (fuel k : Nat) (hk : k ≤ 99) :
    flushLoop envC2 (fuel + 1) (spinState k) = flushLoop envC2 fuel (spinState (k + 1)) :=
  flushLoop_cont envC2 fuel (spinState k) (spinState (k + 1)) wSpin (spin_lt k)
    (spin_get k (spin_lt k)) (spin_body k hk)

theorem spin_stop (fuel : Nat) :
    flushLoop envC2 (fuel + 1) (spinState 100) = spinBreak :=
  flushLoop_stop envC2 fuel (spinState 100) spinBreak wSpin (spin_lt 100)
    (spin_get 100 (spin_lt 100)) (by decide)

theorem spin_run (j m k : Nat) (h : k + j = 100) :
    flushLoop envC2 (m + j + 1) (spinState k) = spinBreak := by
  induction j generalizing k with
  | zero =>
    have hk : k = 100 := by omega
    subst hk
    exact spin_stop m
  | succ j ih =>
    have hk : k ≤ 99 := by omega
    rw [show m + (j + 1) + 1 = m + j + 1 + 1 from by omega]
    rw [spin_step (m + j + 1) k hk]
    exact ih (k + 1) (by omega)

theorem spin_phase1 (m : Nat) : flushPhase1 envC2 (m + 101) sC2 = spinBreak := by
  have hentry : ({ sC2 with flushing := true, queue := sortQueue sC2.queue } : SchedulerState)
      = spinStart := by decide
  calc flushPhase1 envC2 (m + 101) sC2
      = flushLoop envC2 (m + 101) spinStart := by rw [flushPhase1, hentry]
    _ = flushLoop envC2 (m + 100) (spinState 1) :=
        flushLoop_cont envC2 (m + 100) spinStart (spinState 1) wSpin (by decide) (by decide)
          (by decide)
    _ = spinBreak := spin_run 99 m 1 (by omega)

theorem spin_flush (m : Nat) :
    flushSchedulerQueue envC2 cenv0 (m + 101) sC2
      = callUpdatedHooks envC2 cenv0 spinBreak.queue
          (callActivatedHooks spinBreak.activatedChildren
            (resetSchedulerState spinBreak)) := by
  rw [flushSchedulerQueue_eq, spin_phase1 m]

/-- Claim C2 counterexample: flushing the job that unconditionally
re-registers itself on every run stops the loop after exactly 101 mid-flush
re-registrations, not after 100 as claimed: the dev-mode check breaks only
once the per-id counter *exceeds* `MAX_UPDATE_COUNT = 100`. -/
theorem circular_break_counterexample :
    (flushSchedulerQueue envC2 cenv0 101 sC2).requeues = 101 ∧
    ¬ (flushSchedulerQueue envC2 cenv0 101 sC2).requeues = 100 := by
  have h : flushSchedulerQueue envC2 cenv0 101 sC2
      = flushSchedulerQueue envC2 cenv0 (0 + 101) sC2 := by norm_num
  rw [h, spin_flush 0]
  constructor <;> decide

/-- Claim C2 (amended): a job that unconditionally re-registers itself stops
the flush after exactly 101 re-registrations within the cycle (it runs 101
times, and the loop breaks when the per-id counter exceeds
`MAX_UPDATE_COUNT = 100`), regardless of how much longer the loop could have
run; the diagnostic names the offending user watcher by its expression
string; and the already-scheduled job behind the break point (id 1000) does
not run in this cycle — the reset then drops the whole queue and membership
set. -/
theorem circular_break_at_101 (m : Nat) :
    (flushSchedulerQueue envC2 cenv0 (m + 101) sC2).runLog = List.replicate 101 1 ∧
    (flushSchedulerQueue envC2 cenv0 (m + 101) sC2).requeues = 101 ∧
    (flushSchedulerQueue envC2 cenv0 (m + 101) sC2).warnings = [warnMsg wSpin] ∧
    warnMsg wSpin
      = "You may have an infinite update loop in watcher with expression \"spin\"" ∧
    1000 ∉ (flushSchedulerQueue envC2 cenv0 (m + 101) sC2).runLog ∧
    (flushSchedulerQueue envC2 cenv0 (m + 101) sC2).queue = [] ∧
    (flushSchedulerQueue envC2 cenv0 (m + 101) sC2).has = [] := by
  rw [spin_flush m]
  refine ⟨by decide, by decide, by decide, by decide, by decide, by decide, by decide⟩

/-- Witness for `flush_sorts_queue` at the `[3, 1, 2]` queue. -/
theorem flush_sorts_queue_witness :
    IdSorted (sortQueue [exW 3, exW 1, exW 2]) ∧
    (flushSchedulerQueue envId cenv0 10 sC3).runLog = [1, 2, 3] :=
  ⟨flush_sorts_queue.1 [exW 3, exW 1, exW 2], flush_sorts_queue.2.2⟩

/-- Witness for `flushCallbacks_isolation` on the ok/fail/ok snapshot. -/
theorem flushCallbacks_isolation_witness :
    (flushCallbacks tick3).ranLog = [1, 3] ∧
    (flushCallbacks tick3).errorLog = [(2, "nextTick")] :=
  ⟨(flushCallbacks_isolation tick3).2.1, (flushCallbacks_isolation tick3).2.2⟩

/-- Witness for `updated_hooks_reverse` on the flush with primary jobs 1, 2, 3. -/
theorem updated_hooks_reverse_witness :
    (flushSchedulerQueue envId cenvP 10 sC3).updatedLog = [3, 2, 1] :=
  (updated_hooks_reverse envId cenvP [] initState).2

/-- Witness for `reset_before_hooks` on the hook-requeue example. -/
theorem reset_before_hooks_witness :
    (resetSchedulerState (flushPhase1 envHook 10 (queueWatcher wHook initState))).queue
      = [] ∧
    (resetSchedulerState
        (flushPhase1 envHook 10 (queueWatcher wHook initState))).activatedChildren
      = [] := by
  have h := reset_before_hooks envHook cenvHook 10 (queueWatcher wHook initState)
  exact ⟨h.1, h.2.1⟩

/-- Witness for `circular_break_at_101` at the minimal fuel. -/
theorem circular_break_at_101_witness :
    (flushSchedulerQueue envC2 cenv0 (0 + 101) sC2).runLog = List.replicate 101 1 ∧
    (flushSchedulerQueue envC2 cenv0 (0 + 101) sC2).requeues = 101 := by
  have h := circular_break_at_101 0
  exact ⟨h.1, h.2.1⟩
